import Mathlib

/-!
Verification development for the climate-digital-twin quantitative risk
engine (src/core/financial.py and src/core/simulation.py).

Modelling conventions:
* Machine floats are modelled by an arbitrary linear ordered field `K`
  (instantiated at `ℝ` for statements about the real program and at `ℚ`
  where a decidable evaluation is needed).  Floating point rounding is not
  modelled; all arithmetic is exact.
* Every call to `np.sqrt` is routed through an explicit function parameter
  `sqrt : K → K`; statements about the real program instantiate it with
  `Real.sqrt`.
* The global numpy random generator is modelled by a stream `g : ℕ → K` of
  standard normal draws, consumed in exactly the order the source consumes
  them, together with a cursor.  `np.random.seed s` resets the stream to a
  deterministic function of `s` (parameter `seedStream`) and the cursor to 0.
* Python exceptions are modelled with `Except String`.  Operations that
  raise in the source (pure float division by zero, `np.percentile` of an
  empty array, `np.linalg.cholesky` of a non positive definite matrix)
  return `.error`; numpy operations that silently produce NaN instead of
  raising (`np.mean` of an empty slice) return `Option` values, with `none`
  standing for NaN.
-/

section Primitives

variable {K : Type} [LinearOrderedField K]

/-- Model of `np.clip(x, lo, hi)`, which computes
`np.minimum(hi, np.maximum(lo, x))`. -/
def npClip (lo hi x : K) : K := min hi (max lo x)

/-- Model of `np.mean` on a possibly empty array: numpy emits NaN (modelled
as `none`) on an empty input and the arithmetic mean otherwise. -/
def npMeanOpt (l : List K) : Option K :=
  if l.isEmpty then none else some (l.sum / (l.length : K))

/-- Total version of `npMeanOpt` for call sites where the source guarantees
a nonempty array; the default 0 is never reached in those contexts. -/
def npMeanD (l : List K) : K := (npMeanOpt l).getD 0

/-- Ascending sort, modelling `np.sort`. -/
def npSort (l : List K) : List K := l.mergeSort fun a b => decide (a ≤ b)

/-- Model of `np.percentile(l, q)` with the default linear interpolation:
with `s` the ascending sort and `pos = q/100 * (n-1)`, the result is
`s[⌊pos⌋] + (pos - ⌊pos⌋) * (s[⌊pos⌋+1] - s[⌊pos⌋])`.  numpy raises on an
empty input, modelled by `none`. -/
def npPercentile (l : List K) (q : ℚ) : Option K :=
  if l.isEmpty then none else
    let s := npSort l
    let pos : ℚ := q * ((l.length : ℚ) - 1) / 100
    let i : ℕ := (Int.floor pos).toNat
    let frac : ℚ := pos - (i : ℚ)
    some (s.getD i 0 + (frac : K) * (s.getD (i + 1) (s.getD i 0) - s.getD i 0))

/-- Total version of `npPercentile` used where the source has already
guaranteed the array is nonempty. -/
def npPercentileD (l : List K) (q : ℚ) : K := (npPercentile l q).getD 0

/-- Model of `np.std` (population standard deviation):
`sqrt(mean((x - mean(x))^2))`. -/
def npStd (sqrt : K → K) (l : List K) : K :=
  sqrt (npMeanD (l.map fun x => (x - npMeanD l) ^ 2))

/-- Model of `np.min` on an array the source guarantees nonempty. -/
def npMinD (l : List K) : K := (l.min?).getD 0

/-- Model of `np.max` on an array the source guarantees nonempty. -/
def npMaxD (l : List K) : K := (l.max?).getD 0

/-- Dot product of the first `j` entries of two rows, used by the Cholesky
factorisation. -/
def dotTrunc (r1 r2 : List K) (j : ℕ) : K :=
  ((List.range j).map fun k => r1.getD k 0 * r2.getD k 0).sum

/-- Builds the sub diagonal part of the next Cholesky row from the already
finished rows: entry `j` is `(A i j - Σ_{k<j} L i k * L j k) / L j j`. -/
def cholBuildRow (rows : List (List K)) (Ai : ℕ → K) : List K :=
  (List.range rows.length).foldl
    (fun row j =>
      let Lj := rows.getD j []
      row ++ [(Ai j - dotTrunc row Lj j) / Lj.getD j 0]) []

/-- Model of `np.linalg.cholesky` on an `n × n` matrix: the standard lower
triangular factorisation, failing (LinAlgError) exactly when a pivot
`A i i - Σ_{k<i} L i k ^ 2` is not positive. -/
def cholesky (sqrt : K → K) (n : ℕ) (A : ℕ → ℕ → K) :
    Except String (List (List K)) :=
  (List.range n).foldlM
    (fun rows i =>
      let row := cholBuildRow rows (A i)
      let d := A i i - dotTrunc row row i
      if d ≤ 0 then .error "matrix is not positive definite"
      else .ok (rows ++ [row ++ [sqrt d]]))
    []

/-- Entry access for a lower triangular factor stored as a list of rows;
entries above the diagonal read as 0, as in the dense numpy result. -/
def matEntry (rows : List (List K)) (i k : ℕ) : K := (rows.getD i []).getD k 0

/-- The identity matrix, the fallback used by the portfolio simulator when
the Cholesky factorisation fails. -/
def eyeEntry (i k : ℕ) : K := if i = k then (1 : K) else 0

end Primitives

section CreditModel

variable {K : Type} [LinearOrderedField K]

/-- The `ClimateVasicek` model object (src/core/financial.py, class
`ClimateVasicek`).  Field names follow the constructor attributes; the
Vasicek parameters are the fixed values assigned in `__init__`. -/
structure ClimateVasicek (K : Type) where
  basePd : K
  baseLgd : K
  climateBeta : K
  correlation : K
  recoveryRate : K
  speedOfMeanReversion : K
  longRunMean : K
  volatility : K
  climateCorrelation : K

/-- Constructor `ClimateVasicek.__init__` with `recovery_rate=None`:
`recovery_rate = 1 - base_lgd`, kappa `= 0.05`, long run mean `= base_pd`,
sigma `= 0.12`, climate correlation `= 0.25`. -/
def mkClimateVasicek (basePd baseLgd climateBeta correlation : K) :
    ClimateVasicek K :=
  { basePd := basePd, baseLgd := baseLgd, climateBeta := climateBeta,
    correlation := correlation, recoveryRate := 1 - baseLgd,
    speedOfMeanReversion := 1 / 20, longRunMean := basePd,
    volatility := 12 / 100, climateCorrelation := 1 / 4 }

/-- Result dictionary of `calculate_climate_adjustment`. -/
structure ClimateAdjustment (K : Type) where
  pdMultiplier : K
  lgdMultiplier : K
  climateFactor : K
  adjustedPd : K
  adjustedLgd : K

/-- Model of `ClimateVasicek.calculate_climate_adjustment`
(financial.py lines 124-159).  `physicalDamage` is the source argument
`physical_damage_ratio`, `pdCap`/`lgdCap` the cap arguments (defaults 3.0
and 1.5 at the call site in `run_full_analysis`):
`pd_multiplier = min(pdCap, 1 + beta * damage)`,
`lgd_multiplier = min(lgdCap, 1 + 0.5 * damage)`,
`adjusted_pd = base_pd * pd_multiplier` (NOT capped at 1),
`adjusted_lgd = min(1, base_lgd * lgd_multiplier)`. -/
def calculateClimateAdjustment (m : ClimateVasicek K)
    (physicalDamage pdCap lgdCap : K) : ClimateAdjustment K :=
  let pdMultiplier := min pdCap (1 + m.climateBeta * physicalDamage)
  let lgdMultiplier := min lgdCap (1 + (1 / 2) * physicalDamage)
  { pdMultiplier := pdMultiplier,
    lgdMultiplier := lgdMultiplier,
    climateFactor := m.climateBeta * physicalDamage,
    adjustedPd := m.basePd * pdMultiplier,
    adjustedLgd := min 1 (m.baseLgd * lgdMultiplier) }

/-- Number of daily steps used by the PD Monte Carlo:
`n_steps = time_horizon * 252`. -/
def mcSteps (timeHorizon : ℕ) : ℕ := timeHorizon * 252

/-- The pair of independent standard normal draws consumed per simulation
per step by `calculate_adjusted_pd_monte_carlo`: at step `t ≥ 1` the call
`z = np.random.randn(n_simulations, 2)` consumes `2 * nSims` values of the
stream `g` in row major order, so `z[sim, j]` is draw number
`(t-1) * 2 * nSims + 2 * sim + j` after the seeding. -/
def mcZ (g : ℕ → K) (nSims t sim j : ℕ) : K :=
  g ((t - 1) * (2 * nSims) + 2 * sim + j)

/-- The fixed 2x2 correlation matrix between the systematic and climate
factors (`corr_matrix` in `calculate_adjusted_pd_monte_carlo`). -/
def mcCorrMatrix (m : ClimateVasicek K) : ℕ → ℕ → K :=
  fun i j => if i = j then 1 else m.climateCorrelation

/-- Correlated shocks `w = L @ z.T`: `w[r, sim] = Σ_k L r k * z[sim, k]`. -/
def mcW (L : ℕ → ℕ → K) (g : ℕ → K) (nSims t sim r : ℕ) : K :=
  L r 0 * mcZ g nSims t sim 0 + L r 1 * mcZ g nSims t sim 1

/-- The mean reverting climate shock path (`climate_shocks` array):
starts at 0 and evolves by
`cs_t = cs_{t-1} + kappa * (0 - cs_{t-1}) * dt + sqrt(dt) * w[1]`. -/
def climateShockPath (sqrt : K → K) (L : ℕ → ℕ → K) (g : ℕ → K)
    (m : ClimateVasicek K) (nSims sim : ℕ) : ℕ → K
  | 0 => 0
  | t + 1 =>
    let prev := climateShockPath sqrt L g m nSims sim t
    prev + m.speedOfMeanReversion * (0 - prev) * (1 / 252) +
      sqrt (1 / 252) * mcW L g nSims (t + 1) sim 1

/-- The simulated PD path (`pd_paths` array) of
`calculate_adjusted_pd_monte_carlo` (financial.py lines 194-230):
row `sim`, column `t`.  Column 0 is `base_pd` (assigned unclipped); for
`t ≥ 1` the Vasicek increment plus the climate effect
`beta * (climate_factor + climate_shock_t)` is applied and the result is
clipped into `[0.0001, 0.9999]`. -/
def pdPath (sqrt : K → K) (L : ℕ → ℕ → K) (g : ℕ → K)
    (m : ClimateVasicek K) (climateFactor : K) (nSims sim : ℕ) : ℕ → K
  | 0 => m.basePd
  | t + 1 =>
    let prev := pdPath sqrt L g m climateFactor nSims sim t
    let climateEffect := m.climateBeta *
      (climateFactor + climateShockPath sqrt L g m nSims sim (t + 1))
    npClip (1 / 10000) (9999 / 10000)
      (prev + m.speedOfMeanReversion * (m.longRunMean - prev) * (1 / 252) +
        sqrt (1 / 252) * m.volatility * mcW L g nSims (t + 1) sim 0 +
        climateEffect)

/-- Result dictionary of `calculate_adjusted_pd_monte_carlo`. -/
structure MCPDResult (K : Type) where
  basePd : K
  finalPd : List K
  mean : K
  std : K
  p5 : K
  p25 : K
  p50 : K
  p75 : K
  p95 : K
  p99 : K
  stressedPd : K
  paths : ℕ → ℕ → K
  nSimulations : ℕ
  timeHorizon : ℕ

/-- Model of `ClimateVasicek.calculate_adjusted_pd_monte_carlo`
(financial.py lines 161-250) after the seeding, as a function of the
post-seed draw stream `g`.  The 2x2 Cholesky factorisation happens first
(its LinAlgError would propagate); `np.percentile` raises on an empty
final distribution, i.e. when `n_simulations = 0`. -/
def calculateAdjustedPdMonteCarlo (sqrt : K → K) (g : ℕ → K)
    (m : ClimateVasicek K) (timeHorizon : ℕ) (climateFactor : K)
    (nSims : ℕ) : Except String (MCPDResult K) := do
  let rows ← cholesky sqrt 2 (mcCorrMatrix m)
  let L := matEntry rows
  let finalPd := (List.range nSims).map fun sim =>
    pdPath sqrt L g m climateFactor nSims sim (mcSteps timeHorizon)
  if finalPd.isEmpty then .error "zero-size array to percentile" else
  .ok { basePd := m.basePd,
        finalPd := finalPd,
        mean := npMeanD finalPd,
        std := npStd sqrt finalPd,
        p5 := npPercentileD finalPd 5,
        p25 := npPercentileD finalPd 25,
        p50 := npPercentileD finalPd 50,
        p75 := npPercentileD finalPd 75,
        p95 := npPercentileD finalPd 95,
        p99 := npPercentileD finalPd 99,
        stressedPd := npPercentileD finalPd 99,
        paths := fun sim t => pdPath sqrt L g m climateFactor nSims sim t,
        nSimulations := nSims,
        timeHorizon := timeHorizon }

/-- Model of `ClimateVasicek.calculate_expected_loss`:
`EL = exposure * pd * lgd`. -/
def calculateExpectedLoss (exposure pd lgd : K) : K := exposure * pd * lgd

/-- Model of `ClimateVasicek.calculate_unexpected_loss`:
`corr = correlation if given else self.correlation`;
`UL = exposure * sqrt(pd * lgd^2 * (1 - pd)) * sqrt(corr)`. -/
def calculateUnexpectedLoss (sqrt : K → K) (m : ClimateVasicek K)
    (exposure pd lgd : K) (correlation : Option K) : K :=
  let corr := correlation.getD m.correlation
  let ulComponent := sqrt (pd * lgd ^ 2 * (1 - pd))
  exposure * ulComponent * sqrt corr

/-- Result dictionary of `calculate_capital_requirement`. -/
structure CapitalRequirement (K : Type) where
  unexpectedLoss : K
  baseCapital : K
  adjustedCapital : K
  confidenceLevel : ℚ
  zScore : K
  capitalFrac : K

/-- The z score lookup of `calculate_capital_requirement`; unrecognised
confidence levels default to the 0.999 value 3.09. -/
def zScoreLookup (confidenceLevel : ℚ) : K :=
  if confidenceLevel = 90 / 100 then 128 / 100
  else if confidenceLevel = 95 / 100 then 1645 / 1000
  else if confidenceLevel = 99 / 100 then 233 / 100
  else if confidenceLevel = 999 / 1000 then 309 / 100
  else 309 / 100

/-- Model of `ClimateVasicek.calculate_capital_requirement`
(financial.py lines 303-338); `capitalFrac` is the source argument
`capital_ratio` (default 0.08). -/
def calculateCapitalRequirement (ul : K) (confidenceLevel : ℚ)
    (capitalFrac : K) : CapitalRequirement K :=
  let z : K := zScoreLookup confidenceLevel
  { unexpectedLoss := ul,
    baseCapital := ul * capitalFrac,
    adjustedCapital := ul * capitalFrac * z / (309 / 100),
    confidenceLevel := confidenceLevel,
    zScore := z,
    capitalFrac := capitalFrac }

/-- The `{base, stressed, additional, increase_percentage}` sub dictionary
built by `run_full_analysis` for EL and UL. -/
structure LossFigures (K : Type) where
  base : K
  stressed : K
  additional : K
  increasePercentage : K

/-- Result of `run_full_analysis`. -/
structure FullAnalysis (K : Type) where
  climateAdjustment : ClimateAdjustment K
  stressedPd : K
  pdIncreaseFactor : K
  pdDistribution : MCPDResult K
  expectedLoss : LossFigures K
  unexpectedLoss : LossFigures K
  capitalBase : K
  capitalStressed : K
  capitalAdditional : K
  climateBuffer : K
  totalImpact : K
  capitalIncrease : K

/-- Model of `ClimateVasicek.run_full_analysis` (financial.py lines
340-428) as a function of the post-seed draw stream `g`.  It performs no
input validation whatsoever: the only failure points are the Monte Carlo
call (empty percentile when `n_simulations = 0`) and the float division
`stressed_pd / base_pd` when `base_pd = 0` (ZeroDivisionError).  The EL/UL
`increase_percentage` entries are guarded by `if base > 0 ... else 0`. -/
def runFullAnalysis (sqrt : K → K) (g : ℕ → K) (m : ClimateVasicek K)
    (exposure : K) (timeHorizon : ℕ) (physicalDamage : K)
    (nSims : ℕ) : Except String (FullAnalysis K) := do
  let adjustment := calculateClimateAdjustment m physicalDamage 3 (3 / 2)
  let pdResult ← calculateAdjustedPdMonteCarlo sqrt g m timeHorizon
    adjustment.climateFactor nSims
  let baseEl := calculateExpectedLoss exposure m.basePd m.baseLgd
  let stressedEl := calculateExpectedLoss exposure pdResult.stressedPd
    adjustment.adjustedLgd
  let baseUl := calculateUnexpectedLoss sqrt m exposure m.basePd m.baseLgd none
  let stressedUl := calculateUnexpectedLoss sqrt m exposure
    pdResult.stressedPd adjustment.adjustedLgd none
  let baseCapital := calculateCapitalRequirement baseUl (999 / 1000) (8 / 100)
  let stressedCapital := calculateCapitalRequirement stressedUl (999 / 1000)
    (8 / 100)
  if m.basePd = 0 then .error "ZeroDivisionError: stressed_pd / base_pd" else
  .ok { climateAdjustment := adjustment,
        stressedPd := pdResult.stressedPd,
        pdIncreaseFactor := pdResult.stressedPd / m.basePd,
        pdDistribution := pdResult,
        expectedLoss :=
          { base := baseEl, stressed := stressedEl,
            additional := stressedEl - baseEl,
            increasePercentage :=
              if 0 < baseEl then (stressedEl - baseEl) / baseEl * 100 else 0 },
        unexpectedLoss :=
          { base := baseUl, stressed := stressedUl,
            additional := stressedUl - baseUl,
            increasePercentage :=
              if 0 < baseUl then (stressedUl - baseUl) / baseUl * 100 else 0 },
        capitalBase := baseCapital.baseCapital,
        capitalStressed := stressedCapital.adjustedCapital,
        capitalAdditional :=
          stressedCapital.adjustedCapital - baseCapital.baseCapital,
        climateBuffer := stressedCapital.adjustedCapital * (15 / 100),
        totalImpact := stressedEl - baseEl + (stressedUl - baseUl),
        capitalIncrease :=
          stressedCapital.adjustedCapital - baseCapital.baseCapital }

end CreditModel

section PortfolioSim

variable {K : Type} [LinearOrderedField K]

/-- A portfolio asset (src/core/simulation.py, dataclass `PortfolioAsset`).
`damageFrac` is the source field `damage_ratio`. -/
structure PortfolioAsset (K : Type) where
  assetId : String
  value : K
  assetType : String
  region : String
  basePd : K
  baseLgd : K
  climateBeta : K
  damageFrac : K

/-- Simulation configuration (dataclass `SimulationConfig`);
`correlationFactor` is `correlation_factor`, `climateCorrelation` is
`climate_correlation`, `confidenceLevel` is kept exact as a rational. -/
structure SimulationConfig (K : Type) where
  nSimulations : ℕ
  timeHorizon : ℕ
  confidenceLevel : ℚ
  randomSeed : ℕ
  correlationFactor : K
  climateCorrelation : K

/-- Model of `MonteCarloEngine._get_total_value`: sum of asset values. -/
def getTotalValue (assets : List (PortfolioAsset K)) : K :=
  (assets.map fun a => a.value).sum

/-- Model of `MonteCarloEngine._build_correlation_matrix`: for one asset
the matrix `[[1.0]]`, otherwise the flat matrix with off diagonal
`1 - correlation_factor` and unit diagonal.  (For `n = 1` the two branches
denote the same matrix on the index range used.) -/
def buildCorrelationMatrix (cf : K) : ℕ → ℕ → K :=
  fun i j => if i = j then 1 else 1 - cf

/-- The number of daily steps: `n_steps = time_horizon * 252`. -/
def simSteps (cfg : SimulationConfig K) : ℕ := cfg.timeHorizon * 252

/-- The Cholesky factor used by `run_simulation`, with the
`except np.linalg.LinAlgError` fallback to the identity `np.eye(n)`. -/
def simL (sqrt : K → K) (cfg : SimulationConfig K) (nAssets : ℕ) :
    ℕ → ℕ → K :=
  match cholesky sqrt nAssets (buildCorrelationMatrix cfg.correlationFactor) with
  | .ok rows => matEntry rows
  | .error _ => eyeEntry

/-- Stream position at which step `t ≥ 1` of `run_simulation` starts
drawing.  Per step the source consumes `nSims * nAssets` draws for the
`z` matrix and then, per asset, `nSims` draws for the climate shock and
`nSims` draws for the idiosyncratic shock: `3 * nSims * nAssets` total. -/
def stepBase (nSims nAssets t : ℕ) : ℕ := (t - 1) * (3 * nSims * nAssets)

/-- Entry `z[sim, k]` of the per step draw `np.random.randn(nSims, nAssets)`
(row major order). -/
def simZ (g : ℕ → K) (nSims nAssets t sim k : ℕ) : K :=
  g (stepBase nSims nAssets t + sim * nAssets + k)

/-- The per asset climate shock draw of step `t`: the source calls
`np.random.randn(n_simulations)` INSIDE the per asset loop, after the `z`
matrix and after the two per asset vectors of every earlier asset, so
asset `i` reads the stream at offset
`nSims * nAssets + i * 2 * nSims + sim` within the step. -/
def climateDraw (g : ℕ → K) (nSims nAssets t i sim : ℕ) : K :=
  g (stepBase nSims nAssets t + nSims * nAssets + i * (2 * nSims) + sim)

/-- The per asset idiosyncratic draw of step `t`, read `nSims` positions
after the climate draw of the same asset. -/
def idioDraw (g : ℕ → K) (nSims nAssets t i sim : ℕ) : K :=
  g (stepBase nSims nAssets t + nSims * nAssets + i * (2 * nSims) + nSims + sim)

/-- Correlated shocks `(L @ z.T)[i, sim] = Σ_{k<nAssets} L i k * z[sim,k]`. -/
def correlatedShock (L : ℕ → ℕ → K) (g : ℕ → K)
    (nSims nAssets t i sim : ℕ) : K :=
  ((List.range nAssets).map fun k =>
    L i k * simZ g nSims nAssets t sim k).sum

/-- The `time_factor = np.sqrt(step / n_steps)` of `run_simulation`. -/
def timeFactor (sqrt : K → K) (nSteps t : ℕ) : K :=
  sqrt ((t : K) / (nSteps : K))

/-- The `market_shock` term:
`correlated * sqrt(dt) * 0.1 * time_factor`. -/
def marketShock (sqrt : K → K) (L : ℕ → ℕ → K) (g : ℕ → K)
    (nSims nAssets nSteps t i sim : ℕ) : K :=
  correlatedShock L g nSims nAssets t i sim * sqrt (1 / 252) * (1 / 10) *
    timeFactor sqrt nSteps t

/-- The `idiosyncratic_shock` term as the source computes it:
`correlated * sqrt(1 - correlation_factor) * sqrt(dt) * 0.05 * randn(...)`.
Note the leading factor `correlated_shocks[i, :]`. -/
def idiosyncraticShock (sqrt : K → K) (L : ℕ → ℕ → K) (g : ℕ → K)
    (corrFactor : K) (nSims nAssets t i sim : ℕ) : K :=
  correlatedShock L g nSims nAssets t i sim * sqrt (1 - corrFactor) *
    sqrt (1 / 252) * (1 / 20) * idioDraw g nSims nAssets t i sim

/-- The `beta_effect` term:
`climate_beta * climate_factor * time_factor * climate_shock`, with the
climate shock freshly drawn for THIS asset. -/
def betaEffect (sqrt : K → K) (g : ℕ → K) (asset : PortfolioAsset K)
    (climateFactor : K) (nSims nAssets nSteps t i sim : ℕ) : K :=
  asset.climateBeta * climateFactor * timeFactor sqrt nSteps t *
    climateDraw g nSims nAssets t i sim

/-- The per step `total_shock` of asset `i` (simulation.py lines 149-154):
market + idiosyncratic + beta effect - damage drag. -/
def totalShock (sqrt : K → K) (L : ℕ → ℕ → K) (g : ℕ → K)
    (cfg : SimulationConfig K) (asset : PortfolioAsset K)
    (climateFactor : K) (nAssets t i sim : ℕ) : K :=
  marketShock sqrt L g cfg.nSimulations nAssets (simSteps cfg) t i sim +
    idiosyncraticShock sqrt L g cfg.correlationFactor cfg.nSimulations
      nAssets t i sim +
    betaEffect sqrt g asset climateFactor cfg.nSimulations nAssets
      (simSteps cfg) t i sim -
    asset.damageFrac * climateFactor * timeFactor sqrt (simSteps cfg) t

/-- The asset value path `asset_values[asset_id][sim, t]`:
row 0 is the input value, then `value_t = value_{t-1} * (1 + total_shock)`. -/
def assetVal (sqrt : K → K) (g : ℕ → K) (cfg : SimulationConfig K)
    (assets : List (PortfolioAsset K)) (climateFactor : K)
    (i sim : ℕ) : ℕ → K
  | 0 => (assets.getD i
      { assetId := "", value := 0, assetType := "", region := "",
        basePd := 0, baseLgd := 0, climateBeta := 0, damageFrac := 0 }).value
  | t + 1 =>
    let asset := assets.getD i
      { assetId := "", value := 0, assetType := "", region := "",
        basePd := 0, baseLgd := 0, climateBeta := 0, damageFrac := 0 }
    let L := simL sqrt cfg assets.length
    assetVal sqrt g cfg assets climateFactor i sim t *
      (1 + totalShock sqrt L g cfg asset climateFactor assets.length
        (t + 1) i sim)

/-- The portfolio value `portfolio_values[sim, t]`: at step 0 the total
input value, afterwards the explicit per step sum over all asset paths
(identical values for every `t` by the source recomputation). -/
def portfolioVal (sqrt : K → K) (g : ℕ → K) (cfg : SimulationConfig K)
    (assets : List (PortfolioAsset K)) (climateFactor : K)
    (sim t : ℕ) : K :=
  if t = 0 then getTotalValue assets
  else ((List.range assets.length).map fun i =>
    assetVal sqrt g cfg assets climateFactor i sim t).sum

/-- The terminal portfolio returns
`(final - initial) / initial` per simulation row. -/
def simReturns (sqrt : K → K) (g : ℕ → K) (cfg : SimulationConfig K)
    (assets : List (PortfolioAsset K)) (climateFactor : K) : List K :=
  (List.range cfg.nSimulations).map fun sim =>
    (portfolioVal sqrt g cfg assets climateFactor sim (simSteps cfg) -
      getTotalValue assets) / getTotalValue assets

/-- Risk metrics dictionary of `_calculate_risk_metrics`.  The expected
shortfall entries are `Option` valued because `np.mean` of an empty tail
slice yields NaN (`none`). -/
structure RiskMetrics (K : Type) where
  valueAtRisk : K
  valueAtRiskDollar : K
  expectedShortfall : Option K
  expectedShortfallDollar : Option K
  probabilityOfLoss : K
  probabilityOf25pctLoss : K
  probabilityOf50pctLoss : K
  probabilityOf75pctLoss : K
  confidenceLevel : ℚ
  volatilityAnnualized : K
  skewness : K
  kurtosis : K

/-- Model of `MonteCarloEngine._calculate_risk_metrics` (simulation.py
lines 274-337).  `var_idx = int((1 - confidence_level) * n)` and
`es_idx = int(0.05 * n)` (the ES tail is fixed at 5%);
`sorted_returns[var_idx]` raises IndexError when `var_idx >= n` (in
particular for an empty return array), modelled by `.error`;
`np.mean(sorted_returns[:es_idx])` silently yields NaN when `es_idx = 0`. -/
def calculateRiskMetrics (sqrt : K → K) (confidenceLevel : ℚ)
    (returns initialValues : List K) : Except String (RiskMetrics K) :=
  let n := returns.length
  let sortedReturns := npSort returns
  let varIdx : ℕ := (Int.floor ((1 - confidenceLevel) * (n : ℚ))).toNat
  let esIdx : ℕ := (Int.floor ((5 : ℚ) / 100 * (n : ℚ))).toNat
  if n ≤ varIdx then .error "IndexError: index out of bounds" else
  let varValue := sortedReturns.getD varIdx 0
  let expectedShortfall := npMeanOpt (sortedReturns.take esIdx)
  let meanR := npMeanD returns
  let stdR := npStd sqrt returns
  .ok { valueAtRisk := varValue,
        valueAtRiskDollar := |varValue| * npMeanD initialValues,
        expectedShortfall := expectedShortfall,
        expectedShortfallDollar :=
          expectedShortfall.map fun es => |es| * npMeanD initialValues,
        probabilityOfLoss :=
          ((returns.countP fun r => decide (r < 0)) : K) / (n : K),
        probabilityOf25pctLoss :=
          ((returns.countP fun r => decide (r < -(25 / 100))) : K) / (n : K),
        probabilityOf50pctLoss :=
          ((returns.countP fun r => decide (r < -(50 / 100))) : K) / (n : K),
        probabilityOf75pctLoss :=
          ((returns.countP fun r => decide (r < -(75 / 100))) : K) / (n : K),
        confidenceLevel := confidenceLevel,
        volatilityAnnualized := stdR * sqrt 252,
        skewness :=
          if 2 < n ∧ 0 < stdR then
            npMeanD (returns.map fun r => ((r - meanR) / stdR) ^ 3)
          else 0,
        kurtosis :=
          if 3 < n ∧ 0 < stdR then
            npMeanD (returns.map fun r => ((r - meanR) / stdR) ^ 4) - 3
          else 0 }

/-- Distribution summary (the `final_distribution` and
`return_distribution` sub dictionaries). -/
structure DistSummary (K : Type) where
  mean : K
  std : K
  p5 : K
  p25 : K
  p50 : K
  p75 : K
  p95 : K

/-- Result of `run_simulation`. -/
structure SimResult (K : Type) where
  initialValue : K
  finalMin : K
  finalMax : K
  finalDistribution : DistSummary K
  returnDistribution : DistSummary K
  returnsArray : List K
  riskMetrics : RiskMetrics K
  portfolioPaths : ℕ → ℕ → K
  assetPaths : ℕ → ℕ → ℕ → K
  nSuccessful : ℕ

/-- Model of `MonteCarloEngine.run_simulation` (simulation.py lines
61-212) as a function of the post-seed draw stream `g`.  There is NO input
validation: an empty asset list or degenerate configuration flows straight
into the computation.  The failure points are, in source order, the risk
metrics (IndexError on an empty return array) and the percentile calls of
the result dictionary (only reachable errors: `n_simulations = 0`). -/
def runSimulation (sqrt : K → K) (g : ℕ → K) (cfg : SimulationConfig K)
    (assets : List (PortfolioAsset K)) (climateFactor : K) :
    Except String (SimResult K) := do
  let finalValues := (List.range cfg.nSimulations).map fun sim =>
    portfolioVal sqrt g cfg assets climateFactor sim (simSteps cfg)
  let initialValues := (List.range cfg.nSimulations).map fun _ =>
    getTotalValue assets
  let returns := simReturns sqrt g cfg assets climateFactor
  let metrics ← calculateRiskMetrics sqrt cfg.confidenceLevel returns
    initialValues
  if finalValues.isEmpty then .error "zero-size array to percentile" else
  .ok { initialValue := npMeanD initialValues,
        finalMin := npMinD finalValues,
        finalMax := npMaxD finalValues,
        finalDistribution :=
          { mean := npMeanD finalValues, std := npStd sqrt finalValues,
            p5 := npPercentileD finalValues 5,
            p25 := npPercentileD finalValues 25,
            p50 := npPercentileD finalValues 50,
            p75 := npPercentileD finalValues 75,
            p95 := npPercentileD finalValues 95 },
        returnDistribution :=
          { mean := npMeanD returns, std := npStd sqrt returns,
            p5 := npPercentileD returns 5,
            p25 := npPercentileD returns 25,
            p50 := npPercentileD returns 50,
            p75 := npPercentileD returns 75,
            p95 := npPercentileD returns 95 },
        returnsArray := returns,
        riskMetrics := metrics,
        portfolioPaths := fun sim t =>
          portfolioVal sqrt g cfg assets climateFactor sim t,
        assetPaths := fun i sim t =>
          assetVal sqrt g cfg assets climateFactor i sim t,
        nSuccessful := cfg.nSimulations }

end PortfolioSim

section SeededAndAggregator

variable {K : Type} [LinearOrderedField K]

/-- Global numpy generator state: the active draw stream together with the
cursor position of the next draw. -/
def RNGState (K : Type) : Type := (ℕ → K) × ℕ

/-- Model of `np.random.seed(s)`: the previous generator state is
discarded entirely and replaced by a stream that is a deterministic
function of the seed (`seedStream s`), with the cursor reset to 0. -/
def npSeed (seedStream : ℕ → ℕ → K) (s : ℕ) (_pre : RNGState K) :
    RNGState K := (seedStream s, 0)

/-- Model of `calculate_adjusted_pd_monte_carlo` including its first
statement `np.random.seed(random_seed)`: the result is computed from the
freshly seeded stream, and the generator is advanced by the
`2 * nSims` draws per step it consumes. -/
def calculateAdjustedPdMonteCarloSeeded (sqrt : K → K)
    (seedStream : ℕ → ℕ → K) (m : ClimateVasicek K) (timeHorizon : ℕ)
    (climateFactor : K) (nSims randomSeed : ℕ) (pre : RNGState K) :
    Except String (MCPDResult K) × RNGState K :=
  let st := npSeed seedStream randomSeed pre
  (calculateAdjustedPdMonteCarlo sqrt st.1 m timeHorizon climateFactor nSims,
    (st.1, 2 * nSims * mcSteps timeHorizon))

/-- Model of constructing a fresh `MonteCarloEngine(config)` (whose
`__init__` calls `np.random.seed(config.random_seed)`) and immediately
calling `run_simulation` on it. -/
def freshEngineRunSimulation (sqrt : K → K) (seedStream : ℕ → ℕ → K)
    (cfg : SimulationConfig K) (assets : List (PortfolioAsset K))
    (climateFactor : K) (pre : RNGState K) :
    Except String (SimResult K) × RNGState K :=
  let st := npSeed seedStream cfg.randomSeed pre
  (runSimulation sqrt st.1 cfg assets climateFactor,
    (st.1, 3 * cfg.nSimulations * assets.length * simSteps cfg))

/-- An exposure record accepted by
`PortfolioRiskCalculator.calculate_portfolio_risk`; the duck typed
object-or-dict access collapses to plain field reads, with the source
defaults (`pd=0.02`, `lgd=0.4`, `beta=0.5`, `damage=0`) filled in by the
caller.  `damageFrac` is the source field `damage_ratio`. -/
structure PRExposure (K : Type) where
  exposureId : String
  value : K
  basePd : K
  baseLgd : K
  climateBeta : K
  damageFrac : K

/-- One entry of the `individual_risks` list. -/
structure IndividualRisk (K : Type) where
  exposureId : String
  value : K
  weight : K
  expectedLoss : K
  unexpectedLoss : K
  capitalImpact : K

/-- The concentration sub dictionary of `_calculate_concentration`. -/
structure Concentration (K : Type) where
  maxWeight : K
  hhi : K
  concentrationLevel : String

/-- Result of `calculate_portfolio_risk`. -/
structure PortfolioRisk (K : Type) where
  totalExposure : K
  numExposures : ℕ
  diversificationFactor : K
  expectedLoss : K
  unexpectedLoss : K
  capitalImpact : K
  individualRisks : List (IndividualRisk K)
  concentration : Option (Concentration K)

/-- Model of `PortfolioRiskCalculator._calculate_concentration`:
returns `{}` (`none`) for an empty list, otherwise max weight, the
Herfindahl-Hirschman index and the fixed threshold label. -/
def calculateConcentration (risks : List (IndividualRisk K)) :
    Option (Concentration K) :=
  if risks.isEmpty then none else
    let weights := risks.map fun r => r.weight
    some { maxWeight := npMaxD weights,
           hhi := (weights.map fun w => w ^ 2).sum,
           concentrationLevel :=
             if 25 / 100 < (weights.map fun w => w ^ 2).sum then "high"
             else if 15 / 100 < (weights.map fun w => w ^ 2).sum then "medium"
             else "low" }

/-- Model of `PortfolioRiskCalculator.calculate_portfolio_risk`
(financial.py lines 454-539) as a function of the post-seed stream `g`.
Per exposure it builds a `ClimateVasicek(pd, lgd, beta)` and runs
`run_full_analysis(value, 10, damage)` (10000 simulations).  The weight
entry `exp_value / total_exposure` has NO guard: when the total exposure
is 0 the Python float division raises ZeroDivisionError, modelled by
`.error`.  Afterwards the diversification factor
`sqrt(1/n + (n-1)/n * 0.3)` (1 for a single exposure) scales the summed
UL, and the concentration metrics are attached. -/
def calculatePortfolioRisk (sqrt : K → K) (g : ℕ → K)
    (exposures : List (PRExposure K)) : Except String (PortfolioRisk K) := do
  let totalExposure := (exposures.map fun e => e.value).sum
  let individualRisks ← exposures.mapM fun exp => do
    let vasicek := mkClimateVasicek exp.basePd exp.baseLgd exp.climateBeta
      (3 / 10)
    let analysis ← runFullAnalysis sqrt g vasicek exp.value 10 exp.damageFrac
      10000
    let weight ← if totalExposure = 0 then
        Except.error "ZeroDivisionError: exp_value / total_exposure"
      else Except.ok (exp.value / totalExposure)
    Except.ok { exposureId := exp.exposureId,
                value := exp.value,
                weight := weight,
                expectedLoss := analysis.expectedLoss.additional,
                unexpectedLoss := analysis.unexpectedLoss.additional,
                capitalImpact := analysis.capitalAdditional }
  let n := exposures.length
  let diversificationFactor : K :=
    if 1 < n then
      sqrt (1 / (n : K) + ((n : K) - 1) / (n : K) * (3 / 10))
    else 1
  .ok { totalExposure := totalExposure,
        numExposures := n,
        diversificationFactor := diversificationFactor,
        expectedLoss := (individualRisks.map fun r => r.expectedLoss).sum,
        unexpectedLoss :=
          (individualRisks.map fun r => r.unexpectedLoss).sum *
            diversificationFactor,
        capitalImpact := (individualRisks.map fun r => r.capitalImpact).sum,
        individualRisks := individualRisks,
        concentration := calculateConcentration individualRisks }

end SeededAndAggregator

/-- Modelled from the claim wording for C4 (spec section 4.2): the per
asset return shock is stated there as market shock plus an independently
redrawn idiosyncratic shock scaled by
`sqrt(1 - correlation_factor) * sqrt(dt) * 0.05` (without the correlated
shock factor the source applies), plus the beta effect on the climate
shock, minus the damage drag.  Used only to compare the claimed formula
with the source formula `totalShock`. -/
def specTotalShock {K : Type} [LinearOrderedField K] (sqrt : K → K)
    (L : ℕ → ℕ → K) (g : ℕ → K) (cfg : SimulationConfig K)
    (asset : PortfolioAsset K) (climateFactor : K)
    (nAssets t i sim : ℕ) : K :=
  marketShock sqrt L g cfg.nSimulations nAssets (simSteps cfg) t i sim +
    sqrt (1 - cfg.correlationFactor) * sqrt (1 / 252) * (1 / 20) *
      idioDraw g cfg.nSimulations nAssets t i sim +
    betaEffect sqrt g asset climateFactor cfg.nSimulations nAssets
      (simSteps cfg) t i sim -
    asset.damageFrac * climateFactor * timeFactor sqrt (simSteps cfg) t

section SortLemmas

variable {K : Type} [LinearOrderedField K]

theorem npSort_perm (l : List K) : List.Perm (npSort l) l := List.mergeSort_perm l _

theorem npSort_length (l : List K) : (npSort l).length = l.length :=
  (npSort_perm l).length_eq

theorem npSort_sorted (l : List K) : (npSort l).Pairwise (· ≤ ·) := by
  have htrans : ∀ a b c : K,
      (fun a b : K => decide (a ≤ b)) a b → (fun a b : K => decide (a ≤ b)) b c →
      (fun a b : K => decide (a ≤ b)) a c := by
    intro a b c hab hbc
    simp only [decide_eq_true_eq] at hab hbc ⊢
    exact le_trans hab hbc
  have htotal : ∀ a b : K,
      (fun a b : K => decide (a ≤ b)) a b || (fun a b : K => decide (a ≤ b)) b a := by
    intro a b
    simpa using le_total a b
  have h := List.sorted_mergeSort htrans htotal l
  have h2 : (npSort l).Pairwise fun a b : K => decide (a ≤ b) = true := h
  exact h2.imp fun hab => by simpa using hab

theorem sorted_getElem_mono {s : List K} (hs : s.Pairwise (· ≤ ·)) {i j : ℕ}
    (hij : i ≤ j) (hi : i < s.length) (hj : j < s.length) : s[i] ≤ s[j] := by
  rcases Nat.lt_or_ge i j with h | h
  · exact List.pairwise_iff_getElem.mp hs i j hi hj h
  · have : i = j := le_antisymm hij h
    subst this
    exact le_refl _

theorem countP_le_of_forall₂ (c : K) {a b : List K}
    (h : List.Forall₂ (· ≤ ·) a b) :
    b.countP (fun x => decide (x ≤ c)) ≤ a.countP (fun x => decide (x ≤ c)) := by
  induction h with
  | nil => simp
  | @cons x y as bs hxy _ ih =>
    simp only [List.countP_cons]
    by_cases hyc : y ≤ c
    · have hxc : x ≤ c := le_trans hxy hyc
      rw [if_pos (decide_eq_true hxc), if_pos (decide_eq_true hyc)]
      omega
    · rw [if_neg (by simpa using hyc)]
      have h2 : (0 : ℕ) ≤ if decide (x ≤ c) = true then 1 else 0 := Nat.zero_le _
      omega

theorem sorted_count_ge {s : List K} (hs : s.Pairwise (· ≤ ·)) {k : ℕ}
    (hk : k < s.length) :
    k + 1 ≤ s.countP fun x => decide (x ≤ s[k]) := by
  have hsplit : s.countP (fun x => decide (x ≤ s[k])) =
      (s.take (k + 1)).countP (fun x => decide (x ≤ s[k])) +
      (s.drop (k + 1)).countP (fun x => decide (x ≤ s[k])) := by
    rw [← List.countP_append, List.take_append_drop]
  have htake : (s.take (k + 1)).countP (fun x => decide (x ≤ s[k])) =
      (s.take (k + 1)).length := by
    rw [List.countP_eq_length]
    intro a ha
    obtain ⟨i, hi, hgi⟩ := List.mem_iff_getElem.mp ha
    have hikl : i < k + 1 := by
      have := hi
      simp only [List.length_take] at this
      omega
    have hisl : i < s.length := by
      have := hi
      simp only [List.length_take] at this
      omega
    have : (s.take (k + 1))[i] = s[i] := List.getElem_take s
    rw [this] at hgi
    subst hgi
    simpa using sorted_getElem_mono hs (by omega) hisl hk
  have hlen : (s.take (k + 1)).length = k + 1 := by
    simp only [List.length_take]
    omega
  omega

theorem sorted_getElem_le_of_count {s : List K} (hs : s.Pairwise (· ≤ ·))
    {k : ℕ} (hk : k < s.length) {c : K}
    (hc : k + 1 ≤ s.countP fun x => decide (x ≤ c)) : s[k] ≤ c := by
  by_contra hlt
  push_neg at hlt
  have hdrop : (s.drop k).countP (fun x => decide (x ≤ c)) = 0 := by
    rw [List.countP_eq_zero]
    intro a ha
    obtain ⟨j, hj, hgj⟩ := List.mem_iff_getElem.mp ha
    have hkj : k + j < s.length := by
      have := hj
      simp only [List.length_drop] at this
      omega
    have : (s.drop k)[j] = s[k + j] := List.getElem_drop s
    rw [this] at hgj
    subst hgj
    have hsk : s[k] ≤ s[k + j] := sorted_getElem_mono hs (by omega) hk hkj
    simp only [decide_eq_true_eq]
    intro hcon
    exact absurd (le_trans hsk hcon) (not_le.mpr hlt)
  have hsplit : s.countP (fun x => decide (x ≤ c)) =
      (s.take k).countP (fun x => decide (x ≤ c)) +
      (s.drop k).countP (fun x => decide (x ≤ c)) := by
    rw [← List.countP_append, List.take_append_drop]
  have htake : (s.take k).countP (fun x => decide (x ≤ c)) ≤ k := by
    have h1 := List.countP_le_length (l := s.take k)
      (p := fun x => decide (x ≤ c))
    have h2 : (s.take k).length ≤ k := by
      simp only [List.length_take]
      omega
    omega
  omega

theorem npSort_getD_mono {a b : List K} (hab : List.Forall₂ (· ≤ ·) a b)
    {k : ℕ} (hk : k < a.length) :
    (npSort a).getD k 0 ≤ (npSort b).getD k 0 := by
  have hlen := hab.length_eq
  have hka : k < (npSort a).length := by rw [npSort_length]; exact hk
  have hkb : k < (npSort b).length := by rw [npSort_length, ← hlen]; exact hk
  have e1 : (npSort a).getD k 0 = (npSort a)[k] := by
    rw [List.getD_eq_getElem?_getD, List.getElem?_eq_getElem hka]
    rfl
  have e2 : (npSort b).getD k 0 = (npSort b)[k] := by
    rw [List.getD_eq_getElem?_getD, List.getElem?_eq_getElem hkb]
    rfl
  rw [e1, e2]
  have h1 : k + 1 ≤ (npSort b).countP fun x => decide (x ≤ (npSort b)[k]) :=
    sorted_count_ge (npSort_sorted b) hkb
  have h2 : (npSort b).countP (fun x => decide (x ≤ (npSort b)[k])) =
      b.countP (fun x => decide (x ≤ (npSort b)[k])) :=
    (npSort_perm b).countP_eq _
  have h3 : b.countP (fun x => decide (x ≤ (npSort b)[k])) ≤
      a.countP (fun x => decide (x ≤ (npSort b)[k])) :=
    countP_le_of_forall₂ _ hab
  have h4 : a.countP (fun x => decide (x ≤ (npSort b)[k])) =
      (npSort a).countP (fun x => decide (x ≤ (npSort b)[k])) :=
    ((npSort_perm a).countP_eq _).symm
  exact sorted_getElem_le_of_count (npSort_sorted a) hka (by omega)

theorem forall₂_map_of_le {l : List ℕ} {f h : ℕ → K}
    (hfh : ∀ i, f i ≤ h i) :
    List.Forall₂ (· ≤ ·) (l.map f) (l.map h) := by
  induction l with
  | nil => simp
  | cons x xs ih => exact List.Forall₂.cons (hfh x) ih

theorem npMeanOpt_le {l : List K} {c : K} (hne : l ≠ [])
    (h : ∀ x ∈ l, x ≤ c) : ∃ v, npMeanOpt l = some v ∧ v ≤ c := by
  have hemp : l.isEmpty = false := by
    simpa [List.isEmpty_iff] using hne
  refine ⟨l.sum / (l.length : K), by simp [npMeanOpt, hemp], ?_⟩
  have hlen : (0 : K) < (l.length : K) := by
    have := List.length_pos.mpr hne
    exact_mod_cast this
  rw [div_le_iff₀ hlen]
  have hsum : l.sum ≤ l.length • c := List.sum_le_card_nsmul l c h
  calc l.sum ≤ l.length • c := hsum
    _ = (l.length : K) * c := by rw [nsmul_eq_mul]
    _ = c * (l.length : K) := by ring

end SortLemmas

section MonoLemmas

variable {K : Type} [LinearOrderedField K]

theorem npClip_mono {lo hi x y : K} (h : x ≤ y) :
    npClip lo hi x ≤ npClip lo hi y :=
  min_le_min (le_refl _) (max_le_max (le_refl _) h)

theorem npClip_le_hi (lo hi x : K) : npClip lo hi x ≤ hi := min_le_left _ _

theorem lo_le_npClip {lo hi : K} (h : lo ≤ hi) (x : K) :
    lo ≤ npClip lo hi x := le_min h (le_max_left _ _)

theorem npPercentileD_mono {a b : List K} (q : ℚ) (hq0 : 0 ≤ q)
    (hq1 : q ≤ 100) (hab : List.Forall₂ (· ≤ ·) a b) (hne : a ≠ []) :
    npPercentileD a q ≤ npPercentileD b q := by
  have hlen := hab.length_eq
  have hbne : b ≠ [] := by
    intro h
    subst h
    simp only [List.length_nil] at hlen
    exact hne (List.length_eq_zero.mp hlen)
  have hempa : a.isEmpty = false := by simpa [List.isEmpty_iff] using hne
  have hempb : b.isEmpty = false := by simpa [List.isEmpty_iff] using hbne
  have hn1 : 1 ≤ a.length := List.length_pos.mpr hne
  have hpos0 : 0 ≤ q * ((a.length : ℚ) - 1) / 100 := by
    apply div_nonneg _ (by norm_num)
    apply mul_nonneg hq0
    have h1 : (1 : ℚ) ≤ (a.length : ℚ) := by exact_mod_cast hn1
    linarith
  have hposle : q * ((a.length : ℚ) - 1) / 100 ≤ (a.length : ℚ) - 1 := by
    rw [div_le_iff₀ (by norm_num : (0 : ℚ) < 100)]
    have h1 : (0 : ℚ) ≤ (a.length : ℚ) - 1 := by
      have h2 : (1 : ℚ) ≤ (a.length : ℚ) := by exact_mod_cast hn1
      linarith
    nlinarith
  set pos : ℚ := q * ((a.length : ℚ) - 1) / 100 with hposdef
  set i : ℕ := (Int.floor pos).toNat with hidef
  have hifl : (i : ℚ) = ((Int.floor pos : ℤ) : ℚ) := by
    rw [hidef]
    have h1 : ((Int.floor pos).toNat : ℤ) = Int.floor pos :=
      Int.toNat_of_nonneg (Int.floor_nonneg.mpr hpos0)
    exact_mod_cast h1
  have hile : (i : ℚ) ≤ pos := by
    rw [hifl]
    exact Int.floor_le pos
  have hfrac0 : 0 ≤ pos - (i : ℚ) := by linarith
  have hfrac1 : pos - (i : ℚ) ≤ 1 := by
    rw [hifl]
    have := Int.lt_floor_add_one pos
    linarith
  have hin : i < a.length := by
    have h1 : (i : ℚ) ≤ (a.length : ℚ) - 1 := le_trans hile hposle
    have h2 : (i : ℚ) < (a.length : ℚ) := by linarith
    exact_mod_cast h2
  rw [npPercentileD, npPercentileD, npPercentile, npPercentile, hempa, hempb]
  simp only [Bool.false_eq_true, if_false, Option.getD_some, ← hlen, ← hposdef,
    ← hidef]
  have hcast0 : (0 : K) ≤ ((pos - (i : ℚ) : ℚ) : K) := by
    exact_mod_cast hfrac0
  by_cases hcase : i + 1 < a.length
  · have hx := npSort_getD_mono hab hin
    have hy := npSort_getD_mono hab hcase
    have hga : (npSort a).getD (i + 1) ((npSort a).getD i 0) =
        (npSort a).getD (i + 1) 0 := by
      have hka : i + 1 < (npSort a).length := by rw [npSort_length]; exact hcase
      simp only [List.getD_eq_getElem?_getD, List.getElem?_eq_getElem hka,
        Option.getD_some]
    have hgb : (npSort b).getD (i + 1) ((npSort b).getD i 0) =
        (npSort b).getD (i + 1) 0 := by
      have hkb : i + 1 < (npSort b).length := by
        rw [npSort_length, ← hlen]
        exact hcase
      simp only [List.getD_eq_getElem?_getD, List.getElem?_eq_getElem hkb,
        Option.getD_some]
    rw [hga, hgb]
    have hcast1 : ((pos - (i : ℚ) : ℚ) : K) ≤ 1 := by
      have h1 : ((pos - (i : ℚ) : ℚ) : K) ≤ ((1 : ℚ) : K) := by
        exact_mod_cast hfrac1
      simpa using h1
    set f : K := ((pos - (i : ℚ) : ℚ) : K)
    set xa := (npSort a).getD i 0
    set xb := (npSort b).getD i 0
    set ya := (npSort a).getD (i + 1) 0
    set yb := (npSort b).getD (i + 1) 0
    have e1 : xa + f * (ya - xa) = (1 - f) * xa + f * ya := by ring
    have e2 : xb + f * (yb - xb) = (1 - f) * xb + f * yb := by ring
    rw [e1, e2]
    have h1mf : (0 : K) ≤ 1 - f := by linarith
    exact add_le_add (mul_le_mul_of_nonneg_left hx h1mf)
      (mul_le_mul_of_nonneg_left hy hcast0)
  · have hieq : (i : ℚ) = (a.length : ℚ) - 1 := by
      have h1 : a.length ≤ i + 1 := Nat.le_of_not_lt hcase
      have h2 : (a.length : ℚ) ≤ (i : ℚ) + 1 := by exact_mod_cast h1
      have h3 : (i : ℚ) ≤ (a.length : ℚ) - 1 := le_trans hile hposle
      linarith
    have hfz : pos - (i : ℚ) = 0 := by
      have h1 : pos ≤ (i : ℚ) := by rw [hieq]; exact hposle
      linarith
    rw [hfz]
    simp only [Rat.cast_zero, zero_mul, add_zero]
    exact npSort_getD_mono hab hin

theorem pdPath_mono (sqrt : K → K) (L : ℕ → ℕ → K) (g : ℕ → K)
    (m : ClimateVasicek K) (nSims sim : ℕ) (hβ : 0 ≤ m.climateBeta)
    (hκ : m.speedOfMeanReversion * (1 / 252) ≤ 1) {cf1 cf2 : K}
    (hcf : cf1 ≤ cf2) (t : ℕ) :
    pdPath sqrt L g m cf1 nSims sim t ≤ pdPath sqrt L g m cf2 nSims sim t := by
  induction t with
  | zero => exact le_refl _
  | succ t ih =>
    simp only [pdPath]
    apply npClip_mono
    set prev1 := pdPath sqrt L g m cf1 nSims sim t
    set prev2 := pdPath sqrt L g m cf2 nSims sim t
    set cs := climateShockPath sqrt L g m nSims sim (t + 1)
    set N := sqrt (1 / 252) * m.volatility * mcW L g nSims (t + 1) sim 0
    have key : prev2 + m.speedOfMeanReversion * (m.longRunMean - prev2) *
          (1 / 252) + N + m.climateBeta * (cf2 + cs) -
        (prev1 + m.speedOfMeanReversion * (m.longRunMean - prev1) * (1 / 252) +
          N + m.climateBeta * (cf1 + cs)) =
        (prev2 - prev1) * (1 - m.speedOfMeanReversion * (1 / 252)) +
          m.climateBeta * (cf2 - cf1) := by ring
    have t1 : 0 ≤ (prev2 - prev1) * (1 - m.speedOfMeanReversion * (1 / 252)) :=
      mul_nonneg (sub_nonneg.mpr ih) (sub_nonneg.mpr hκ)
    have t2 : 0 ≤ m.climateBeta * (cf2 - cf1) :=
      mul_nonneg hβ (sub_nonneg.mpr hcf)
    linarith

end MonoLemmas

section ExceptAndCholesky

theorem exceptOkBind {e a b : Type} (x : a) (f : a → Except e b) :
    (Except.ok x : Except e a) >>= f = f x := rfl

theorem exceptPure {e a : Type} (x : a) :
    (pure x : Except e a) = Except.ok x := rfl

variable {K : Type} [LinearOrderedField K]

theorem cholesky_one_eq (sqrt : K → K) (A : ℕ → ℕ → K)
    (h0 : ¬ (A 0 0 ≤ 0)) :
    cholesky sqrt 1 A = Except.ok [[sqrt (A 0 0)]] := by
  simp [cholesky, List.range_succ, cholBuildRow, dotTrunc, if_neg h0,
    exceptOkBind, exceptPure]

theorem cholesky_two_eq (sqrt : K → K) (A : ℕ → ℕ → K)
    (h0 : ¬ (A 0 0 ≤ 0))
    (h1 : ¬ (A 1 1 ≤ A 1 0 / sqrt (A 0 0) * (A 1 0 / sqrt (A 0 0)))) :
    cholesky sqrt 2 A = Except.ok
      [[sqrt (A 0 0)],
       [A 1 0 / sqrt (A 0 0),
        sqrt (A 1 1 - A 1 0 / sqrt (A 0 0) * (A 1 0 / sqrt (A 0 0)))]] := by
  simp [cholesky, List.range_succ, cholBuildRow, dotTrunc, if_neg h0, if_neg h1,
    exceptOkBind, exceptPure]

theorem mcCholeskyEq (b l β c : ℝ) :
    cholesky Real.sqrt 2 (mcCorrMatrix (mkClimateVasicek b l β c)) =
    Except.ok [[1], [1 / 4, Real.sqrt (15 / 16)]] := by
  have h := cholesky_two_eq Real.sqrt
    (mcCorrMatrix (mkClimateVasicek b l β c)) ?_ ?_
  · rw [h]
    norm_num [mcCorrMatrix, mkClimateVasicek, Real.sqrt_one]
  · norm_num [mcCorrMatrix, mkClimateVasicek]
  · norm_num [mcCorrMatrix, mkClimateVasicek, Real.sqrt_one]

theorem calculateAdjustedPdMonteCarlo_eq (b l β c cf : ℝ) (g : ℕ → ℝ)
    (timeHorizon nSims : ℕ) (hn : 0 < nSims) :
    calculateAdjustedPdMonteCarlo Real.sqrt g (mkClimateVasicek b l β c)
      timeHorizon cf nSims =
    Except.ok
      { basePd := b,
        finalPd := (List.range nSims).map fun sim =>
          pdPath Real.sqrt (matEntry [[1], [1 / 4, Real.sqrt (15 / 16)]]) g
            (mkClimateVasicek b l β c) cf nSims sim (mcSteps timeHorizon),
        mean := npMeanD ((List.range nSims).map fun sim =>
          pdPath Real.sqrt (matEntry [[1], [1 / 4, Real.sqrt (15 / 16)]]) g
            (mkClimateVasicek b l β c) cf nSims sim (mcSteps timeHorizon)),
        std := npStd Real.sqrt ((List.range nSims).map fun sim =>
          pdPath Real.sqrt (matEntry [[1], [1 / 4, Real.sqrt (15 / 16)]]) g
            (mkClimateVasicek b l β c) cf nSims sim (mcSteps timeHorizon)),
        p5 := npPercentileD ((List.range nSims).map fun sim =>
          pdPath Real.sqrt (matEntry [[1], [1 / 4, Real.sqrt (15 / 16)]]) g
            (mkClimateVasicek b l β c) cf nSims sim (mcSteps timeHorizon)) 5,
        p25 := npPercentileD ((List.range nSims).map fun sim =>
          pdPath Real.sqrt (matEntry [[1], [1 / 4, Real.sqrt (15 / 16)]]) g
            (mkClimateVasicek b l β c) cf nSims sim (mcSteps timeHorizon)) 25,
        p50 := npPercentileD ((List.range nSims).map fun sim =>
          pdPath Real.sqrt (matEntry [[1], [1 / 4, Real.sqrt (15 / 16)]]) g
            (mkClimateVasicek b l β c) cf nSims sim (mcSteps timeHorizon)) 50,
        p75 := npPercentileD ((List.range nSims).map fun sim =>
          pdPath Real.sqrt (matEntry [[1], [1 / 4, Real.sqrt (15 / 16)]]) g
            (mkClimateVasicek b l β c) cf nSims sim (mcSteps timeHorizon)) 75,
        p95 := npPercentileD ((List.range nSims).map fun sim =>
          pdPath Real.sqrt (matEntry [[1], [1 / 4, Real.sqrt (15 / 16)]]) g
            (mkClimateVasicek b l β c) cf nSims sim (mcSteps timeHorizon)) 95,
        p99 := npPercentileD ((List.range nSims).map fun sim =>
          pdPath Real.sqrt (matEntry [[1], [1 / 4, Real.sqrt (15 / 16)]]) g
            (mkClimateVasicek b l β c) cf nSims sim (mcSteps timeHorizon)) 99,
        stressedPd := npPercentileD ((List.range nSims).map fun sim =>
          pdPath Real.sqrt (matEntry [[1], [1 / 4, Real.sqrt (15 / 16)]]) g
            (mkClimateVasicek b l β c) cf nSims sim (mcSteps timeHorizon)) 99,
        paths := fun sim t =>
          pdPath Real.sqrt (matEntry [[1], [1 / 4, Real.sqrt (15 / 16)]]) g
            (mkClimateVasicek b l β c) cf nSims sim t,
        nSimulations := nSims,
        timeHorizon := timeHorizon } := by
  rw [calculateAdjustedPdMonteCarlo, mcCholeskyEq, exceptOkBind]
  have hne : ¬ (((List.range nSims).map fun sim =>
      pdPath Real.sqrt (matEntry [[1], [1 / 4, Real.sqrt (15 / 16)]]) g
        (mkClimateVasicek b l β c) cf nSims sim
        (mcSteps timeHorizon)).isEmpty = true) := by
    simp only [List.isEmpty_iff, List.map_eq_nil_iff, List.range_eq_nil]
    omega
  rw [if_neg hne]
  rfl

end ExceptAndCholesky

section ClaimC3

/-- C3 counterexample: the claim asserts every entry of the N x (T+1)
ensemble of `calculate_adjusted_pd_monte_carlo` lies in [0.0001, 0.9999]
for any base_pd in (0,1); but column 0 is assigned `base_pd` without
clipping, so with base_pd = 1/20000 = 0.00005 the entry (0,0) violates the
lower bound. -/
theorem pd_ensemble_entry_below_clip_bound :
    ∃ r, calculateAdjustedPdMonteCarlo Real.sqrt (fun _ => 0)
        (mkClimateVasicek (1 / 20000) (2 / 5) 1 (3 / 10)) 1 1 1 =
        Except.ok r ∧
      r.paths 0 0 = 1 / 20000 ∧ ¬ ((1 / 10000 : ℝ) ≤ r.paths 0 0) := by
  refine ⟨_, calculateAdjustedPdMonteCarlo_eq (1 / 20000) (2 / 5) 1 (3 / 10)
    1 (fun _ => 0) 1 1 (by norm_num), ?_, ?_⟩
  · rfl
  · show ¬ ((1 / 10000 : ℝ) ≤ (1 / 20000 : ℝ))
    norm_num

/-- C3 (amended): in the PD ensemble of
`calculate_adjusted_pd_monte_carlo`, every entry of every column from step
1 on is hard clipped into [0.0001, 0.9999] for any input combination, but
column 0 equals base_pd unclipped (so the whole-matrix claim holds only
when base_pd itself lies in the band). -/
theorem pd_ensemble_clipped_after_step_zero (b l β c cf : ℝ) (g : ℕ → ℝ)
    (timeHorizon nSims : ℕ) (hn : 0 < nSims) :
    ∃ r, calculateAdjustedPdMonteCarlo Real.sqrt g (mkClimateVasicek b l β c)
        timeHorizon cf nSims = Except.ok r ∧
      (∀ sim t, (1 / 10000 : ℝ) ≤ r.paths sim (t + 1) ∧
        r.paths sim (t + 1) ≤ 9999 / 10000) ∧
      (∀ sim, r.paths sim 0 = b) := by
  refine ⟨_, calculateAdjustedPdMonteCarlo_eq b l β c cf g timeHorizon nSims
    hn, ?_, ?_⟩
  · intro sim t
    constructor
    · show (1 / 10000 : ℝ) ≤ npClip (1 / 10000) (9999 / 10000) _
      exact lo_le_npClip (by norm_num) _
    · show npClip (1 / 10000) (9999 / 10000) _ ≤ (9999 / 10000 : ℝ)
      exact npClip_le_hi _ _ _
  · intro sim
    rfl

/-- Witness for `pd_ensemble_clipped_after_step_zero` at a concrete
input. -/
theorem pd_ensemble_clipped_after_step_zero_witness :
    ∃ r, calculateAdjustedPdMonteCarlo Real.sqrt (fun _ => 0)
        (mkClimateVasicek (1 / 50) (2 / 5) (1 / 2) (3 / 10)) 1 0 1 =
        Except.ok r ∧
      (∀ sim t, (1 / 10000 : ℝ) ≤ r.paths sim (t + 1) ∧
        r.paths sim (t + 1) ≤ 9999 / 10000) ∧
      (∀ sim, r.paths sim 0 = 1 / 50) :=
  pd_ensemble_clipped_after_step_zero (1 / 50) (2 / 5) (1 / 2) (3 / 10) 0
    (fun _ => 0) 1 1 (by norm_num)

end ClaimC3

section ClaimC6

/-- C6: holding the draw stream (seed) and the horizon fixed, the stressed
PD (the 99th percentile of the terminal simulated PD distribution)
returned by `calculate_adjusted_pd_monte_carlo` is monotonically
non-decreasing in climate_factor, for any model with climate_beta >= 0 and
at least one simulation path. -/
theorem stressed_pd_monotone_in_climate_factor (b l β c : ℝ) (g : ℕ → ℝ)
    (timeHorizon nSims : ℕ) (hn : 0 < nSims) (hβ : 0 ≤ β) {cf1 cf2 : ℝ}
    (hcf : cf1 ≤ cf2) :
    ∃ r1 r2,
      calculateAdjustedPdMonteCarlo Real.sqrt g (mkClimateVasicek b l β c)
        timeHorizon cf1 nSims = Except.ok r1 ∧
      calculateAdjustedPdMonteCarlo Real.sqrt g (mkClimateVasicek b l β c)
        timeHorizon cf2 nSims = Except.ok r2 ∧
      r1.stressedPd ≤ r2.stressedPd := by
  refine ⟨_, _,
    calculateAdjustedPdMonteCarlo_eq b l β c cf1 g timeHorizon nSims hn,
    calculateAdjustedPdMonteCarlo_eq b l β c cf2 g timeHorizon nSims hn, ?_⟩
  show npPercentileD _ 99 ≤ npPercentileD _ 99
  apply npPercentileD_mono 99 (by norm_num) (by norm_num)
  · apply forall₂_map_of_le
    intro sim
    apply pdPath_mono Real.sqrt _ g (mkClimateVasicek b l β c) nSims sim
    · show (0 : ℝ) ≤ β
      exact hβ
    · show (1 / 20 : ℝ) * (1 / 252) ≤ 1
      norm_num
    · exact hcf
  · simp only [ne_eq, List.map_eq_nil_iff, List.range_eq_nil]
    omega

/-- Witness for `stressed_pd_monotone_in_climate_factor`: the concrete
comparison climate_factor 0 versus 0.5 named by the claim. -/
theorem stressed_pd_monotone_in_climate_factor_witness :
    ∃ r1 r2,
      calculateAdjustedPdMonteCarlo Real.sqrt (fun _ => 0)
        (mkClimateVasicek (1 / 50) (2 / 5) (1 / 2) (3 / 10)) 10 0 1 =
        Except.ok r1 ∧
      calculateAdjustedPdMonteCarlo Real.sqrt (fun _ => 0)
        (mkClimateVasicek (1 / 50) (2 / 5) (1 / 2) (3 / 10)) 10 (1 / 2) 1 =
        Except.ok r2 ∧
      r1.stressedPd ≤ r2.stressedPd :=
  stressed_pd_monotone_in_climate_factor (1 / 50) (2 / 5) (1 / 2) (3 / 10)
    (fun _ => 0) 10 1 (by norm_num) (by norm_num) (by norm_num)

end ClaimC6

section ClaimC2

/-- C2 counterexample: with base_pd = 0.9 in (0,1), base_lgd = 0.4 in
(0,1], climate_beta = 0.5 and damage_ratio = 1, the source computes
adjusted_pd = 0.9 * min(3, 1.5) = 1.35, outside (0,1]: `adjusted_pd` is
never capped at 1.  And with damage_ratio = -10 (the claim quantifies over
every damage_ratio) adjusted_lgd = min(1, 0.4 * (1 - 5)) = -1.6, outside
(0,1] as well. -/
theorem adjusted_pd_exceeds_one :
    ((calculateClimateAdjustment
      (mkClimateVasicek (9 / 10 : ℚ) (2 / 5) (1 / 2) (3 / 10)) 1 3
      (3 / 2)).adjustedPd = 27 / 20 ∧
    ¬ ((calculateClimateAdjustment
      (mkClimateVasicek (9 / 10 : ℚ) (2 / 5) (1 / 2) (3 / 10)) 1 3
      (3 / 2)).adjustedPd ≤ 1)) ∧
    ((calculateClimateAdjustment
      (mkClimateVasicek (9 / 10 : ℚ) (2 / 5) (1 / 2) (3 / 10)) (-10) 3
      (3 / 2)).adjustedLgd = -(8 / 5) ∧
    ¬ (0 < (calculateClimateAdjustment
      (mkClimateVasicek (9 / 10 : ℚ) (2 / 5) (1 / 2) (3 / 10)) (-10) 3
      (3 / 2)).adjustedLgd)) := by
  refine ⟨⟨?_, ?_⟩, ?_, ?_⟩
  · show (9 / 10 : ℚ) * min 3 (1 + 1 / 2 * 1) = 27 / 20
    norm_num
  · show ¬ ((9 / 10 : ℚ) * min 3 (1 + 1 / 2 * 1) ≤ 1)
    norm_num
  · show min 1 ((2 / 5 : ℚ) * min (3 / 2) (1 + 1 / 2 * (-10))) = -(8 / 5)
    norm_num
  · show ¬ (0 < min 1 ((2 / 5 : ℚ) * min (3 / 2) (1 + 1 / 2 * (-10))))
    norm_num

/-- C2 (amended): for base_pd > 0, base_lgd in (0,1], damage_ratio >= 0,
climate_beta >= 0 and positive caps, `calculate_climate_adjustment`
guarantees adjusted_lgd in (0,1] and 0 < adjusted_pd <= pd_cap * base_pd;
adjusted_pd is not capped at 1, so the claimed invariant
adjusted_pd in (0,1] holds only when base_pd * pd_multiplier <= 1. -/
theorem climate_adjustment_bounds {K : Type} [LinearOrderedField K]
    (b l β c d pdCap lgdCap : K) (hb : 0 < b) (hl0 : 0 < l) (_hl1 : l ≤ 1)
    (hβ : 0 ≤ β) (hd : 0 ≤ d) (hpc : 0 < pdCap) (hlc : 0 < lgdCap) :
    0 < (calculateClimateAdjustment (mkClimateVasicek b l β c) d pdCap
      lgdCap).adjustedPd ∧
    (calculateClimateAdjustment (mkClimateVasicek b l β c) d pdCap
      lgdCap).adjustedPd ≤ pdCap * b ∧
    0 < (calculateClimateAdjustment (mkClimateVasicek b l β c) d pdCap
      lgdCap).adjustedLgd ∧
    (calculateClimateAdjustment (mkClimateVasicek b l β c) d pdCap
      lgdCap).adjustedLgd ≤ 1 := by
  have hβd : (0 : K) ≤ β * d := mul_nonneg hβ hd
  refine ⟨?_, ?_, ?_, ?_⟩
  · show 0 < b * min pdCap (1 + β * d)
    exact mul_pos hb (lt_min hpc (by linarith))
  · show b * min pdCap (1 + β * d) ≤ pdCap * b
    calc b * min pdCap (1 + β * d) ≤ b * pdCap :=
        mul_le_mul_of_nonneg_left (min_le_left _ _) hb.le
      _ = pdCap * b := mul_comm _ _
  · show 0 < min 1 (l * min lgdCap (1 + 1 / 2 * d))
    refine lt_min one_pos (mul_pos hl0 (lt_min hlc (by linarith)))
  · show min 1 (l * min lgdCap (1 + 1 / 2 * d)) ≤ 1
    exact min_le_left _ _

/-- Witness for `climate_adjustment_bounds` at a concrete input. -/
theorem climate_adjustment_bounds_witness :
    0 < (calculateClimateAdjustment
      (mkClimateVasicek (1 / 50 : ℚ) (2 / 5) (1 / 2) (3 / 10)) (1 / 4) 3
      (3 / 2)).adjustedPd ∧
    (calculateClimateAdjustment
      (mkClimateVasicek (1 / 50 : ℚ) (2 / 5) (1 / 2) (3 / 10)) (1 / 4) 3
      (3 / 2)).adjustedPd ≤ 3 * (1 / 50) ∧
    0 < (calculateClimateAdjustment
      (mkClimateVasicek (1 / 50 : ℚ) (2 / 5) (1 / 2) (3 / 10)) (1 / 4) 3
      (3 / 2)).adjustedLgd ∧
    (calculateClimateAdjustment
      (mkClimateVasicek (1 / 50 : ℚ) (2 / 5) (1 / 2) (3 / 10)) (1 / 4) 3
      (3 / 2)).adjustedLgd ≤ 1 :=
  climate_adjustment_bounds (1 / 50) (2 / 5) (1 / 2) (3 / 10) (1 / 4) 3
    (3 / 2) (by norm_num) (by norm_num) (by norm_num) (by norm_num)
    (by norm_num) (by norm_num) (by norm_num)

end ClaimC2

section ClaimC7

variable {K : Type} [LinearOrderedField K]

theorem take_mem_le_sorted {s : List K} (hs : s.Pairwise (· ≤ ·)) {k : ℕ}
    (hk : k < s.length) : ∀ x ∈ s.take k, x ≤ s[k] := by
  intro x hx
  obtain ⟨i, hi, hgi⟩ := List.mem_iff_getElem.mp hx
  have hik : i < k := by
    have := hi
    simp only [List.length_take] at this
    omega
  have hisl : i < s.length := by omega
  have : (s.take k)[i] = s[i] := List.getElem_take s
  rw [this] at hgi
  subst hgi
  exact sorted_getElem_mono hs (by omega) hisl hk

/-- C7 counterexample: for the all-positive return sample 1..20 (a
distribution with a nonempty 5% tail), `_calculate_risk_metrics` at 95%
confidence yields VaR = 2 and ES = 1, so |ES| >= |VaR| fails: the claimed
inequality in absolute terms only holds for loss-side cutoffs. -/
theorem es_var_abs_counterexample :
    ∃ m es,
      calculateRiskMetrics (fun q : ℚ => q) (95 / 100)
        [1, 2, 3, 4, 5, 6, 7, 8, 9, 10, 11, 12, 13, 14, 15, 16, 17, 18, 19,
          20] [] = Except.ok m ∧
      m.valueAtRisk = 2 ∧ m.expectedShortfall = some es ∧
      ¬ (|m.valueAtRisk| ≤ |es|) := by
  have hms : List.mergeSort
      [(1 : ℚ), 2, 3, 4, 5, 6, 7, 8, 9, 10, 11, 12, 13, 14, 15, 16, 17, 18,
        19, 20] (fun a b => decide (a ≤ b)) =
      [(1 : ℚ), 2, 3, 4, 5, 6, 7, 8, 9, 10, 11, 12, 13, 14, 15, 16, 17, 18,
        19, 20] :=
    List.mergeSort_of_sorted (by decide)
  simp only [calculateRiskMetrics, npSort, hms, List.length_cons,
    List.length_nil]
  norm_num
  exact ⟨1, by norm_num [npMeanOpt], by norm_num⟩

/-- C7 (amended): for at least 20 simulated returns, the expected
shortfall of `_calculate_risk_metrics` at 95% confidence (the mean of the
worst 5% of sorted returns) never exceeds the VaR cutoff in return space,
ES <= VaR; consequently |ES| >= |VaR| in absolute loss terms whenever the
VaR cutoff is a loss (VaR <= 0), but not for all-gain distributions. -/
theorem es_at_most_var (sqrt : K → K) (returns initialValues : List K)
    (hn : 20 ≤ returns.length) :
    ∃ m es,
      calculateRiskMetrics sqrt (95 / 100) returns initialValues =
        Except.ok m ∧
      m.expectedShortfall = some es ∧ es ≤ m.valueAtRisk ∧
      (m.valueAtRisk ≤ 0 → |m.valueAtRisk| ≤ |es|) := by
  have hn0 : 0 < returns.length := by omega
  have hx0 : (0 : ℚ) ≤ (5 : ℚ) / 100 * (returns.length : ℚ) := by positivity
  have hfl_lt : Int.floor ((5 : ℚ) / 100 * (returns.length : ℚ)) <
      (returns.length : ℤ) := by
    rw [Int.floor_lt]
    have h1 : (0 : ℚ) < (returns.length : ℚ) := by exact_mod_cast hn0
    push_cast
    nlinarith
  have hfl_ge : (1 : ℤ) ≤ Int.floor ((5 : ℚ) / 100 * (returns.length : ℚ)) := by
    rw [Int.le_floor]
    have h1 : (20 : ℚ) ≤ (returns.length : ℚ) := by exact_mod_cast hn
    push_cast
    nlinarith
  have hk_lt : (Int.floor ((5 : ℚ) / 100 * (returns.length : ℚ))).toNat <
      returns.length := by omega
  have hk_ge : 1 ≤ (Int.floor ((5 : ℚ) / 100 * (returns.length : ℚ))).toNat := by
    omega
  simp only [calculateRiskMetrics]
  rw [show ((1 : ℚ) - 95 / 100) = 5 / 100 from by norm_num]
  rw [if_neg (by omega)]
  have hslen : (Int.floor ((5 : ℚ) / 100 * (returns.length : ℚ))).toNat <
      (npSort returns).length := by
    rw [npSort_length]
    exact hk_lt
  have htake : (npSort returns).take
      (Int.floor ((5 : ℚ) / 100 * (returns.length : ℚ))).toNat ≠ [] := by
    intro hemp
    rcases List.take_eq_nil_iff.mp hemp with h | h
    · omega
    · have := npSort_length returns
      rw [h] at this
      simp at this
      omega
  obtain ⟨v, hv, hvle⟩ := npMeanOpt_le htake
    (take_mem_le_sorted (npSort_sorted returns) hslen)
  have hgd : (npSort returns).getD
      (Int.floor ((5 : ℚ) / 100 * (returns.length : ℚ))).toNat 0 =
      (npSort returns)[(Int.floor ((5 : ℚ) / 100 *
        (returns.length : ℚ))).toNat] := by
    rw [List.getD_eq_getElem?_getD, List.getElem?_eq_getElem hslen]
    rfl
  refine ⟨_, v, rfl, hv, ?_, ?_⟩
  · show v ≤ (npSort returns).getD _ 0
    rw [hgd]
    exact hvle
  · intro hvar0
    show |(npSort returns).getD _ 0| ≤ |v|
    rw [hgd] at hvar0 ⊢
    have hes0 : v ≤ 0 := le_trans hvle hvar0
    rw [abs_of_nonpos hvar0, abs_of_nonpos hes0]
    simp only [neg_le_neg_iff]
    exact hvle

/-- Witness for `es_at_most_var` at a concrete 20-sample input. -/
theorem es_at_most_var_witness :
    ∃ m es,
      calculateRiskMetrics (fun q : ℚ => q) (95 / 100)
        [1, 2, 3, 4, 5, 6, 7, 8, 9, 10, 11, 12, 13, 14, 15, 16, 17, 18, 19,
          20] [] = Except.ok m ∧
      m.expectedShortfall = some es ∧ es ≤ m.valueAtRisk ∧
      (m.valueAtRisk ≤ 0 → |m.valueAtRisk| ≤ |es|) :=
  es_at_most_var (fun q : ℚ => q)
    [1, 2, 3, 4, 5, 6, 7, 8, 9, 10, 11, 12, 13, 14, 15, 16, 17, 18, 19, 20]
    [] (by norm_num)

end ClaimC7

section ClaimC10

variable {K : Type} [LinearOrderedField K]

theorem calculateRiskMetrics_es_none (sqrt : K → K) (cl : ℚ)
    (returns initialValues : List K) (h1 : 1 ≤ returns.length)
    (h19 : returns.length ≤ 19) (hcl : 0 < cl) :
    ∃ m, calculateRiskMetrics sqrt cl returns initialValues = Except.ok m ∧
      m.expectedShortfall = none := by
  have hvfl : Int.floor ((1 - cl) * (returns.length : ℚ)) <
      (returns.length : ℤ) := by
    rw [Int.floor_lt]
    have hn : (1 : ℚ) ≤ (returns.length : ℚ) := by exact_mod_cast h1
    push_cast
    nlinarith
  have hvar : ¬ (returns.length ≤
      (Int.floor ((1 - cl) * (returns.length : ℚ))).toNat) := by omega
  have hes : Int.floor ((5 : ℚ) / 100 * (returns.length : ℚ)) = 0 := by
    rw [Int.floor_eq_zero_iff]
    constructor
    · positivity
    · have hn : (returns.length : ℚ) ≤ 19 := by exact_mod_cast h19
      nlinarith
  simp only [calculateRiskMetrics]
  rw [if_neg hvar]
  refine ⟨_, rfl, ?_⟩
  show npMeanOpt ((npSort returns).take
    (Int.floor ((5 : ℚ) / 100 * (returns.length : ℚ))).toNat) = none
  rw [hes]
  simp [npMeanOpt]

/-- C10: when `n_simulations <= 19` the 5% tail index
`int(0.05 * n)` truncates to 0, so `_calculate_risk_metrics` takes the
mean of an empty slice of the sorted returns and the `expected_shortfall`
field of the public `run_simulation` result is NaN (modelled as `none`)
rather than a number. -/
theorem expected_shortfall_nan_for_small_n (sqrt : K → K) (g : ℕ → K)
    (cfg : SimulationConfig K) (assets : List (PortfolioAsset K)) (cf : K)
    (h1 : 1 ≤ cfg.nSimulations) (h19 : cfg.nSimulations ≤ 19)
    (hcl : 0 < cfg.confidenceLevel) :
    ∃ r, runSimulation sqrt g cfg assets cf = Except.ok r ∧
      r.riskMetrics.expectedShortfall = none := by
  have hlen : (simReturns sqrt g cfg assets cf).length = cfg.nSimulations := by
    simp [simReturns]
  obtain ⟨m, hmok, hmes⟩ := calculateRiskMetrics_es_none sqrt
    cfg.confidenceLevel (simReturns sqrt g cfg assets cf)
    ((List.range cfg.nSimulations).map fun _ => getTotalValue assets)
    (by omega) (by omega) hcl
  simp only [runSimulation]
  rw [hmok, exceptOkBind]
  rw [if_neg (by
    simp only [List.isEmpty_iff, List.map_eq_nil_iff, List.range_eq_nil]
    omega)]
  exact ⟨_, rfl, hmes⟩

/-- Witness for `expected_shortfall_nan_for_small_n` at a concrete
configuration with 10 simulations. -/
theorem expected_shortfall_nan_for_small_n_witness :
    ∃ r, runSimulation (fun q : ℚ => q) (fun _ => 0)
        { nSimulations := 10, timeHorizon := 1, confidenceLevel := 95 / 100,
          randomSeed := 42, correlationFactor := 3 / 10,
          climateCorrelation := 1 / 4 } [] 0 = Except.ok r ∧
      r.riskMetrics.expectedShortfall = none :=
  expected_shortfall_nan_for_small_n (fun q : ℚ => q) (fun _ => 0)
    { nSimulations := 10, timeHorizon := 1, confidenceLevel := 95 / 100,
      randomSeed := 42, correlationFactor := 3 / 10,
      climateCorrelation := 1 / 4 } [] 0 (by norm_num) (by norm_num)
    (by norm_num)

end ClaimC10

section ClaimC8

/-- C8: for all exposure, pd, lgd and explicitly passed correlation rho,
`calculate_expected_loss` returns exactly exposure * pd * lgd and
`calculate_unexpected_loss` returns exactly
exposure * sqrt(pd * lgd^2 * (1 - pd)) * sqrt(rho). -/
theorem el_ul_closed_form (m : ClimateVasicek ℝ) (e p l ρ : ℝ) :
    calculateExpectedLoss e p l = e * p * l ∧
    calculateUnexpectedLoss Real.sqrt m e p l (some ρ) =
      e * Real.sqrt (p * l ^ 2 * (1 - p)) * Real.sqrt ρ :=
  ⟨rfl, rfl⟩

end ClaimC8

section ClaimC9

/-- C9: both `calculate_adjusted_pd_monte_carlo` (which begins with
`np.random.seed(random_seed)`) and a freshly constructed
`MonteCarloEngine` (whose constructor seeds the global generator from
`config.random_seed`) produce results that are a pure function of their
inputs and seed: two runs from arbitrary, different prior generator
states yield identical ensembles and summary statistics. -/
theorem reproducibility_same_seed {K : Type} [LinearOrderedField K]
    (sqrt : K → K) (seedStream : ℕ → ℕ → K) (m : ClimateVasicek K)
    (timeHorizon : ℕ) (cf : K) (nSims randomSeed : ℕ)
    (cfg : SimulationConfig K) (assets : List (PortfolioAsset K)) (cfP : K)
    (st1 st2 : RNGState K) :
    (calculateAdjustedPdMonteCarloSeeded sqrt seedStream m timeHorizon cf
        nSims randomSeed st1).1 =
      (calculateAdjustedPdMonteCarloSeeded sqrt seedStream m timeHorizon cf
        nSims randomSeed st2).1 ∧
    (freshEngineRunSimulation sqrt seedStream cfg assets cfP st1).1 =
      (freshEngineRunSimulation sqrt seedStream cfg assets cfP st2).1 :=
  ⟨rfl, rfl⟩

end ClaimC9

section ClaimC4

/-- C4 counterexample: (1) with two assets the climate shock used by asset
0 and by asset 1 at the same step and simulation are different draws (the
source redraws `np.random.randn(n_simulations)` inside the per asset
loop), so no single shared climate-shock vector exists; (2) with one
asset, the per step total shock of the source differs from the formula
claimed (independently scaled idiosyncratic shock): the source multiplies
the idiosyncratic term by the correlated shock as well. -/
theorem climate_shock_per_asset_and_idio_mismatch :
    climateDraw (fun n => (n : ℝ) + 2) 1 2 1 0 0 ≠
      climateDraw (fun n => (n : ℝ) + 2) 1 2 1 1 0 ∧
    totalShock Real.sqrt
        (simL Real.sqrt
          { nSimulations := 1, timeHorizon := 1, confidenceLevel := 95 / 100,
            randomSeed := 42, correlationFactor := 3 / 4,
            climateCorrelation := 1 / 4 } 1)
        (fun n => (n : ℝ) + 2)
        { nSimulations := 1, timeHorizon := 1, confidenceLevel := 95 / 100,
          randomSeed := 42, correlationFactor := 3 / 4,
          climateCorrelation := 1 / 4 }
        { assetId := "a", value := 1, assetType := "residential",
          region := "r", basePd := 1 / 50, baseLgd := 2 / 5,
          climateBeta := 0, damageFrac := 0 } 0 1 1 0 0 ≠
      specTotalShock Real.sqrt
        (simL Real.sqrt
          { nSimulations := 1, timeHorizon := 1, confidenceLevel := 95 / 100,
            randomSeed := 42, correlationFactor := 3 / 4,
            climateCorrelation := 1 / 4 } 1)
        (fun n => (n : ℝ) + 2)
        { nSimulations := 1, timeHorizon := 1, confidenceLevel := 95 / 100,
          randomSeed := 42, correlationFactor := 3 / 4,
          climateCorrelation := 1 / 4 }
        { assetId := "a", value := 1, assetType := "residential",
          region := "r", basePd := 1 / 50, baseLgd := 2 / 5,
          climateBeta := 0, damageFrac := 0 } 0 1 1 0 0 := by
  constructor
  · simp only [climateDraw, stepBase]
    norm_num
  · have hchol : cholesky Real.sqrt 1 (buildCorrelationMatrix (3 / 4 : ℝ)) =
        Except.ok [[Real.sqrt 1]] :=
      cholesky_one_eq _ _ (by norm_num [buildCorrelationMatrix])
    have hL : simL Real.sqrt
        { nSimulations := 1, timeHorizon := 1, confidenceLevel := 95 / 100,
          randomSeed := 42, correlationFactor := 3 / 4,
          climateCorrelation := 1 / 4 } 1 = matEntry [[Real.sqrt 1]] := by
      simp [simL, hchol]
    rw [hL]
    have hcorr : correlatedShock (matEntry [[Real.sqrt 1]])
        (fun n => (n : ℝ) + 2) 1 1 1 0 0 = 2 := by
      simp [correlatedShock, List.range_succ, matEntry, simZ, stepBase,
        Real.sqrt_one]
    simp only [totalShock, specTotalShock, idiosyncraticShock, betaEffect,
      marketShock, hcorr]
    have hs14 : Real.sqrt (1 - (3 : ℝ) / 4) = 1 / 2 := by
      rw [show (1 - (3 : ℝ) / 4) = (1 / 2) ^ 2 by norm_num]
      exact Real.sqrt_sq (by norm_num)
    have hst : 0 < Real.sqrt (1 / 252) :=
      Real.sqrt_pos.mpr (by norm_num)
    have hdr : idioDraw (fun n => (n : ℝ) + 2) 1 1 1 0 0 = 4 := by
      simp [idioDraw, stepBase]
      norm_num
    rw [hdr, hs14]
    intro heq
    have heq2 := sub_eq_zero.mpr heq
    ring_nf at heq2
    nlinarith [heq2, hst]

/-- C4 (amended): the per asset multiplicative value update of
`run_simulation` is
`value_{t+1} = value_t * (1 + market + idio + beta_effect - drag)` where
the market shock is the correlated shock scaled by
`sqrt(dt) * 0.1 * time_factor`, the idiosyncratic term is the correlated
shock times `sqrt(1 - correlation_factor) * sqrt(dt) * 0.05` times a fresh
Gaussian, the beta effect is `climate_beta * climate_factor * time_factor`
times a climate-shock Gaussian drawn separately for every asset at every
step (stream offset `n_sims * n_assets + i * 2 * n_sims + sim` within the
step, not one shared vector for all assets), and the drag is
`damage_ratio * climate_factor * time_factor`. -/
theorem portfolio_step_formula {K : Type} [LinearOrderedField K]
    (sqrt : K → K) (g : ℕ → K) (cfg : SimulationConfig K)
    (assets : List (PortfolioAsset K)) (cf : K) (i sim t : ℕ) :
    assetVal sqrt g cfg assets cf i sim (t + 1) =
      assetVal sqrt g cfg assets cf i sim t *
        (1 + (correlatedShock (simL sqrt cfg assets.length) g
            cfg.nSimulations assets.length (t + 1) i sim * sqrt (1 / 252) *
            (1 / 10) * timeFactor sqrt (simSteps cfg) (t + 1) +
          correlatedShock (simL sqrt cfg assets.length) g cfg.nSimulations
              assets.length (t + 1) i sim *
            sqrt (1 - cfg.correlationFactor) * sqrt (1 / 252) * (1 / 20) *
            g (stepBase cfg.nSimulations assets.length (t + 1) +
              cfg.nSimulations * assets.length +
              i * (2 * cfg.nSimulations) + cfg.nSimulations + sim) +
          (assets.getD i
            { assetId := "", value := 0, assetType := "", region := "",
              basePd := 0, baseLgd := 0, climateBeta := 0,
              damageFrac := 0 }).climateBeta * cf *
            timeFactor sqrt (simSteps cfg) (t + 1) *
            g (stepBase cfg.nSimulations assets.length (t + 1) +
              cfg.nSimulations * assets.length +
              i * (2 * cfg.nSimulations) + sim) -
          (assets.getD i
            { assetId := "", value := 0, assetType := "", region := "",
              basePd := 0, baseLgd := 0, climateBeta := 0,
              damageFrac := 0 }).damageFrac * cf *
            timeFactor sqrt (simSteps cfg) (t + 1))) := by
  simp only [assetVal, totalShock, marketShock, idiosyncraticShock,
    betaEffect, climateDraw, idioDraw]

end ClaimC4

section ClaimC1

/-- C1 counterexample: `run_full_analysis` called with a negative exposure
(an invalid input under the spec) does not fail with a validation error:
it returns normally.  There is no input validation at either entry
point. -/
theorem run_full_analysis_accepts_negative_exposure :
    (runFullAnalysis Real.sqrt (fun _ => 0)
      (mkClimateVasicek (1 / 50) (2 / 5) (1 / 2) (3 / 10)) (-1000000) 1
      (1 / 4) 10).isOk = true := by
  have hmc := calculateAdjustedPdMonteCarlo_eq (1 / 50) (2 / 5) (1 / 2)
    (3 / 10)
    ((calculateClimateAdjustment
      (mkClimateVasicek (1 / 50 : ℝ) (2 / 5) (1 / 2) (3 / 10)) (1 / 4) 3
      (3 / 2)).climateFactor) (fun _ => 0) 1 10 (by norm_num)
  simp only [runFullAnalysis, hmc, exceptOkBind]
  rw [if_neg (show ¬ ((mkClimateVasicek (1 / 50 : ℝ) (2 / 5) (1 / 2)
    (3 / 10)).basePd = 0) from by norm_num [mkClimateVasicek])]
  rfl

/-- C1 (amended): the engine entry points perform no input validation:
`run_full_analysis` accepts a negative exposure and silently returns
negative loss figures, and `run_simulation` accepts an empty asset list
and returns normally (its return computation divides by the zero initial
value, which numpy turns into NaN rather than an error). -/
theorem no_input_validation_at_entry :
    (∃ r, runFullAnalysis Real.sqrt (fun _ => 0)
        (mkClimateVasicek (1 / 50) (2 / 5) (1 / 2) (3 / 10)) (-1000000) 1
        (1 / 4) 10 = Except.ok r ∧ r.expectedLoss.base < 0) ∧
    (runSimulation Real.sqrt (fun _ => 0)
      { nSimulations := 2, timeHorizon := 1, confidenceLevel := 95 / 100,
        randomSeed := 42, correlationFactor := 3 / 10,
        climateCorrelation := 1 / 4 } [] 0).isOk = true := by
  constructor
  · have hmc := calculateAdjustedPdMonteCarlo_eq (1 / 50) (2 / 5) (1 / 2)
      (3 / 10)
      ((calculateClimateAdjustment
        (mkClimateVasicek (1 / 50 : ℝ) (2 / 5) (1 / 2) (3 / 10)) (1 / 4) 3
        (3 / 2)).climateFactor) (fun _ => 0) 1 10 (by norm_num)
    simp only [runFullAnalysis, hmc, exceptOkBind]
    rw [if_neg (show ¬ ((mkClimateVasicek (1 / 50 : ℝ) (2 / 5) (1 / 2)
      (3 / 10)).basePd = 0) from by norm_num [mkClimateVasicek])]
    refine ⟨_, rfl, ?_⟩
    show calculateExpectedLoss (-1000000 : ℝ)
      (mkClimateVasicek (1 / 50 : ℝ) (2 / 5) (1 / 2) (3 / 10)).basePd
      (mkClimateVasicek (1 / 50 : ℝ) (2 / 5) (1 / 2) (3 / 10)).baseLgd < 0
    norm_num [calculateExpectedLoss, mkClimateVasicek]
  · obtain ⟨m, hmok, _⟩ := calculateRiskMetrics_es_none Real.sqrt (95 / 100)
      (simReturns Real.sqrt (fun _ => 0)
        { nSimulations := 2, timeHorizon := 1, confidenceLevel := 95 / 100,
          randomSeed := 42, correlationFactor := 3 / 10,
          climateCorrelation := 1 / 4 } [] 0)
      ((List.range 2).map fun _ => getTotalValue ([] : List (PortfolioAsset ℝ)))
      (by simp [simReturns]) (by simp [simReturns]) (by norm_num)
    simp only [runSimulation]
    rw [hmok, exceptOkBind]
    rw [if_neg (by simp)]
    rfl

end ClaimC1

section ClaimC5

theorem exceptErrBind {e a b : Type} (msg : e) (f : a → Except e b) :
    (Except.error msg : Except e a) >>= f = Except.error msg := rfl

theorem portfolioRisk_zero_total_raises {K : Type} [LinearOrderedField K]
    (sqrt : K → K) (g : ℕ → K) (exps : List (PRExposure K)) (hne : exps ≠ [])
    (hz : (exps.map fun x => x.value).sum = 0) :
    (calculatePortfolioRisk sqrt g exps).isOk = false := by
  cases exps with
  | nil => exact absurd rfl hne
  | cons e0 rest =>
    simp only [calculatePortfolioRisk, List.mapM_cons, hz, eq_self_iff_true,
      if_true]
    cases hr : runFullAnalysis sqrt g
      (mkClimateVasicek e0.basePd e0.baseLgd e0.climateBeta (3 / 10))
      e0.value 10 e0.damageFrac 10000 with
    | error msg => rfl
    | ok a => rfl

/-- C5 counterexample: a single exposure of value 0 makes the total
exposure 0; the weight computation `exp_value / total_exposure` in
`calculate_portfolio_risk` has no guard, so the call raises
ZeroDivisionError instead of returning 0. -/
theorem portfolio_weight_division_raises :
    (calculatePortfolioRisk Real.sqrt (fun _ => 0)
      [{ exposureId := "a", value := 0, basePd := 1 / 50, baseLgd := 2 / 5,
         climateBeta := 1 / 2, damageFrac := 0 }]).isOk = false :=
  portfolioRisk_zero_total_raises Real.sqrt (fun _ => 0) _ (by simp)
    (by simp)

/-- C5 (amended): in `run_full_analysis` the increase_percentage fields of
expected_loss and unexpected_loss equal (stressed - base)/base * 100 when
base > 0 and 0 otherwise; but in `calculate_portfolio_risk` the exposure
weighting underlying the HHI has no zero guard: whenever the exposures
list is nonempty and the total exposure is 0 the call raises
(ZeroDivisionError) rather than returning 0. -/
theorem increase_percentage_guards_and_unguarded_weight
    (b l β c e d : ℝ) (g : ℕ → ℝ) (timeHorizon nSims : ℕ) (hb : b ≠ 0)
    (hn : 0 < nSims) :
    (∃ r, runFullAnalysis Real.sqrt g (mkClimateVasicek b l β c) e
        timeHorizon d nSims = Except.ok r ∧
      r.expectedLoss.increasePercentage =
        (if 0 < r.expectedLoss.base then
          (r.expectedLoss.stressed - r.expectedLoss.base) /
            r.expectedLoss.base * 100 else 0) ∧
      r.unexpectedLoss.increasePercentage =
        (if 0 < r.unexpectedLoss.base then
          (r.unexpectedLoss.stressed - r.unexpectedLoss.base) /
            r.unexpectedLoss.base * 100 else 0)) ∧
    ∀ exps : List (PRExposure ℝ), exps ≠ [] →
      (exps.map fun x => x.value).sum = 0 →
      (calculatePortfolioRisk Real.sqrt g exps).isOk = false := by
  constructor
  · have hmc := calculateAdjustedPdMonteCarlo_eq b l β c
      ((calculateClimateAdjustment (mkClimateVasicek b l β c) d 3
        (3 / 2)).climateFactor) g timeHorizon nSims hn
    simp only [runFullAnalysis, hmc, exceptOkBind]
    rw [if_neg (show ¬ ((mkClimateVasicek b l β c).basePd = 0) from hb)]
    exact ⟨_, rfl, rfl, rfl⟩
  · intro exps hne hz
    exact portfolioRisk_zero_total_raises Real.sqrt g exps hne hz

/-- Witness for `increase_percentage_guards_and_unguarded_weight` at a
concrete input. -/
theorem increase_percentage_guards_witness :
    (∃ r, runFullAnalysis Real.sqrt (fun _ => 0)
        (mkClimateVasicek (1 / 50) (2 / 5) (1 / 2) (3 / 10)) 1000000 1 0 1 =
        Except.ok r ∧
      r.expectedLoss.increasePercentage =
        (if 0 < r.expectedLoss.base then
          (r.expectedLoss.stressed - r.expectedLoss.base) /
            r.expectedLoss.base * 100 else 0) ∧
      r.unexpectedLoss.increasePercentage =
        (if 0 < r.unexpectedLoss.base then
          (r.unexpectedLoss.stressed - r.unexpectedLoss.base) /
            r.unexpectedLoss.base * 100 else 0)) ∧
    ∀ exps : List (PRExposure ℝ), exps ≠ [] →
      (exps.map fun x => x.value).sum = 0 →
      (calculatePortfolioRisk Real.sqrt (fun _ => 0) exps).isOk = false :=
  increase_percentage_guards_and_unguarded_weight (1 / 50) (2 / 5) (1 / 2)
    (3 / 10) 1000000 0 (fun _ => 0) 1 1 (by norm_num) (by norm_num)

end ClaimC5
